import Mathlib

/-!
Verification of the tile extraction/serving core of the
detectormaps-blm-plss-vector-tiles repository.

The embedding follows the Python sources:
  * `src/lambda/tile_server.py`  — request handler (`lambda_handler`,
    `get_db_connection`, `get_tile`, `get_metadata`);
  * `src/extract_tiles_to_s3.py` — local bulk publisher
    (`upload_tile`, `extract_and_upload`, `parse_metadata_value`);
  * `src/extract_to_s3_ecs.py`   — ECS bulk publisher (`upload_tile`,
    `extract_and_upload`, `parse_value`).

Python exceptions are modelled with `Except String`; Python's `json.loads`
(from the standard library, external to this repository) is a parameter
`loads : String → Option JsonVal` where `none` models a raised
`json.JSONDecodeError`.  Tile payload bytes are `List Nat`.
-/

/-- Structured values produced by decoding a JSON-encoded metadata string.
Numbers are represented exactly as rationals (no arithmetic is ever
performed on them; the code only passes them through). -/
inductive JsonVal where
  | str : String → JsonVal
  | num : Rat → JsonVal
  | bool : Bool → JsonVal
  | null : JsonVal
  | arr : List JsonVal → JsonVal

/-- The value of a run of decimal digit characters; `none` when the run is
empty or holds a non-digit.  Helper for `pyInt`. -/
def digitsVal (cs : List Char) : Option Nat :=
  match cs with
  | [] => none
  | _ => cs.foldl (fun acc c =>
      acc.bind fun n => if c.isDigit then some (n * 10 + (c.toNat - 48)) else none)
      (some 0)

/-- Surrounding-whitespace stripping, as Python's `int()` performs before
parsing. -/
def stripWs (cs : List Char) : List Char :=
  ((cs.dropWhile Char.isWhitespace).reverse.dropWhile Char.isWhitespace).reverse

/-- Python's `int(str)` conversion: surrounding whitespace stripped, an
optional sign, then decimal digits; `none` models the `ValueError` raised
on any other shape (e.g. `int("abc")`, `int("")`, `int("3.5")`). -/
def pyInt (s : String) : Option Int :=
  match stripWs s.toList with
  | '-' :: cs => (digitsVal cs).map fun n => -(n : Int)
  | '+' :: cs => (digitsVal cs).map fun n => (n : Int)
  | cs => (digitsVal cs).map fun n => (n : Int)

/-- Lookup in the metadata dict `{row[0]: row[1] for row in cursor}`:
built by insertion, so a later duplicate key overwrites an earlier one,
hence the search over the reversed list. -/
def mget (md : List (String × String)) (k : String) : Option String :=
  (md.reverse.find? fun p => p.1 == k).map (·.2)

/-- `parse_metadata_value` from `tile_server.py` (lines 96-102) and
`extract_tiles_to_s3.py` (lines 73-79): `json.loads` the value, and on
decode failure fall back to `value if value else default` (an empty string
is falsy in Python).  A `None` value returns the default. -/
def parse_metadata_value (loads : String → Option JsonVal)
    (value : Option String) (default : JsonVal) : JsonVal :=
  match value with
  | none => default
  | some v =>
    match loads v with
    | some j => j
    | none => if v == "" then default else .str v

/-- `parse_value` from `extract_to_s3_ecs.py` (lines 93-99): identical to
`parse_metadata_value` except that its bare `except:` also catches errors
other than decode failures (no difference for string inputs). -/
def ecs_parse_value (loads : String → Option JsonVal)
    (value : Option String) (default : JsonVal) : JsonVal :=
  match value with
  | none => default
  | some v =>
    match loads v with
    | some j => j
    | none => if v == "" then default else .str v

/-- The TileJSON document built by `tile_server.py` (lines 105-119) and
`extract_tiles_to_s3.py` (lines 81-93); both emit the same keys. -/
structure TileJson where
  tilejson : String
  name : String
  description : String
  version : String
  format : String
  minzoom : Int
  maxzoom : Int
  bounds : JsonVal
  center : JsonVal
  tiles : List String
  vector_layers : JsonVal

/-- `int(metadata.get(k, d))`: the default is already an int, a present
value goes through Python's `int()`, whose `ValueError` on a non-numeric
string is modelled as `Except.error`. -/
def intField (md : List (String × String)) (k : String) (d : Int) : Except String Int :=
  match mget md k with
  | none => .ok d
  | some s =>
    match pyInt s with
    | some n => .ok n
    | none => .error ("invalid literal for int() with base 10: " ++ s)

/-- The `tilejson` dict construction in `lambda_handler`
(`tile_server.py` lines 105-119).  The `int()` conversions of `minzoom`
and `maxzoom` can raise; every other field is a plain lookup with a
default or a `parse_metadata_value` call, which cannot. -/
def build_tilejson (loads : String → Option JsonVal)
    (md : List (String × String)) (host : String) : Except String TileJson :=
  match intField md "minzoom" 0 with
  | .error e => .error e
  | .ok mz =>
    match intField md "maxzoom" 14 with
    | .error e => .error e
    | .ok Mz =>
      .ok {
        tilejson := "3.0.0"
        name := (mget md "name").getD "BLM PLSS CadNSDI"
        description := (mget md "description").getD "BLM National Public Land Survey System"
        version := (mget md "version").getD "1.0.0"
        format := (mget md "format").getD "pbf"
        minzoom := mz
        maxzoom := Mz
        bounds := parse_metadata_value loads (mget md "bounds")
          (.arr [.num (-180), .num (-850511/10000), .num 180, .num (850511/10000)])
        center := parse_metadata_value loads (mget md "center")
          (.arr [.num (-985795/10000), .num (398283/10000), .num 4])
        tiles := ["https://" ++ host ++ "/{z}/{x}/{y}.pbf"]
        vector_layers := parse_metadata_value loads (mget md "json") (.arr []) }

example : pyInt "0" = some 0 := by decide
example : pyInt "-1" = some (-1) := by decide
example : pyInt "abc" = none := by decide
example : pyInt " 14 " = some 14 := by decide
example : mget [("a", "1"), ("a", "2")] "a" = some "2" := by decide

/-! ## The tile archive (MBTiles container) -/

/-- One row of the archive's `tiles` relation:
`(zoom_level, tile_column, tile_row, tile_data)`, with `tile_row` in the
archive (TMS, bottom-origin) scheme.  SQLite integers are modelled as
`Int`; the payload blob as a byte list. -/
structure TileRecord where
  zoom_level : Int
  tile_column : Int
  tile_row : Int
  tile_data : List Nat
  deriving DecidableEq

/-- The opened archive: the `tiles` relation plus the `metadata`
relation's `(name, value)` rows. -/
structure MBTiles where
  tiles : List TileRecord
  metadata : List (String × String)
  deriving DecidableEq

/-- The archive as seen through `get_db_connection` (`tile_server.py`
lines 18-26): `none` models a missing file at `MBTILES_PATH` (the
function prints an error and returns `None`). -/
abbrev DbState := Option MBTiles

/-- The row flip `(2 ** z) - 1 - y` used in `get_tile`
(`tile_server.py` line 39) and in both publishers' `upload_tile`; it is
meaningful for nonnegative zoom (`z.toNat`). -/
def flip_row (z row : Int) : Int := 2 ^ z.toNat - 1 - row

/-- A tile coordinate triple.  The archive scheme and the public scheme
share this carrier; only the interpretation of `row` differs. -/
structure TileCoordinate where
  zoom : Int
  column : Int
  row : Int
  deriving DecidableEq

/-- Archive-to-public conversion applied by the publishers' `upload_tile`:
`xyz_y = (2 ** z) - 1 - y`, zoom and column unchanged. -/
def toPublic (c : TileCoordinate) : TileCoordinate :=
  { c with row := flip_row c.zoom c.row }

/-- Public-to-archive conversion applied by `get_tile`:
`tms_y = (2 ** z) - 1 - y`, the identical formula. -/
def toArchive (c : TileCoordinate) : TileCoordinate :=
  { c with row := flip_row c.zoom c.row }

/-- `get_tile` (`tile_server.py` lines 29-48): with no connection the
result is `None`; otherwise the XYZ row is flipped to TMS and the `tiles`
relation is queried for an exact match.  For a negative zoom Python's
`2 ** z` is a non-integer float, so the comparison key `tms_y` is
fractional and matches no integer `tile_row`: the query returns no row. -/
def get_tile (db : DbState) (z x y : Int) : Option (List Nat) :=
  match db with
  | none => none
  | some m =>
    if z < 0 then none
    else
      (m.tiles.find? fun r =>
        r.zoom_level == z && r.tile_column == x && r.tile_row == flip_row z y).map
        (·.tile_data)

/-- The hardcoded fallback dict returned by `get_metadata` when the
archive cannot be opened (`tile_server.py` lines 55-61). -/
def fallback_metadata : List (String × String) :=
  [("name", "BLM PLSS CadNSDI"),
   ("description", "BLM National Public Land Survey System"),
   ("format", "pbf"),
   ("minzoom", "0"),
   ("maxzoom", "14")]

/-- `get_metadata` (`tile_server.py` lines 51-66): the metadata table when
the archive opens, the hardcoded fallback dict otherwise. -/
def get_metadata (db : DbState) : List (String × String) :=
  match db with
  | none => fallback_metadata
  | some m => m.metadata

/-! ## The request handler -/

/-- A hexadecimal digit's value, for percent-decoding. -/
def hexVal (c : Char) : Option Nat :=
  if '0' ≤ c ∧ c ≤ '9' then some (c.toNat - 48)
  else if 'a' ≤ c ∧ c ≤ 'f' then some (c.toNat - 87)
  else if 'A' ≤ c ∧ c ≤ 'F' then some (c.toNat - 55)
  else none

/-- `urllib.parse.unquote` on the character list: a `%` followed by two
hex digits becomes the character of that code, anything else is kept
(multi-byte UTF-8 sequences are out of scope for the ASCII paths the
handler routes on). -/
def unquoteChars : List Char → List Char
  | [] => []
  | '%' :: h₁ :: h₂ :: rest =>
    match hexVal h₁, hexVal h₂ with
    | some v₁, some v₂ => Char.ofNat (16 * v₁ + v₂) :: unquoteChars rest
    | _, _ => '%' :: unquoteChars (h₁ :: h₂ :: rest)
  | c :: rest => c :: unquoteChars rest

/-- `.strip('/')`: drop leading and trailing slashes. -/
def stripSlashes (cs : List Char) : List Char :=
  ((cs.dropWhile (· == '/')).reverse.dropWhile (· == '/')).reverse

/-- `unquote(path).strip('/')` (`tile_server.py` line 89). -/
def norm_path (s : String) : String :=
  String.mk (stripSlashes (unquoteChars s.toList))

/-- Whether `p` is a prefix of the character list. -/
def startsWith : List Char → List Char → Bool
  | [], _ => true
  | _ :: _, [] => false
  | p :: ps, c :: cs => p == c && startsWith ps cs

/-- Whether `sub` occurs somewhere in the character list. -/
def containsSub (sub : List Char) : List Char → Bool
  | [] => startsWith sub []
  | c :: cs => startsWith sub (c :: cs) || containsSub sub cs

/-- Left-to-right non-overlapping replacement of the nonempty pattern
`sub` by `repl`, fuelled by the input length (Python `str.replace`). -/
def replaceSubFuel (sub repl : List Char) : Nat → List Char → List Char
  | _, [] => []
  | 0, cs => cs
  | fuel + 1, c :: cs =>
    if startsWith sub (c :: cs) then
      repl ++ replaceSubFuel sub repl fuel (cs.drop (sub.length - 1))
    else c :: replaceSubFuel sub repl fuel cs

/-- Python `s.replace(sub, repl)` for a nonempty `sub`. -/
def replaceSub (sub repl s : String) : String :=
  String.mk (replaceSubFuel sub.toList repl.toList s.toList.length s.toList)

/-- Python `s.split('/')`: empty segments are kept, `''.split('/')` is
`['']`. -/
def splitOnSlash (cs : List Char) : List (List Char) :=
  match cs with
  | [] => [[]]
  | '/' :: rest => [] :: splitOnSlash rest
  | c :: rest =>
    match splitOnSlash rest with
    | [] => [[c]]
    | g :: gs => (c :: g) :: gs

/-- The request event: presence of the `rawPath` / `path` / `resource`
keys and of `headers['host']`, the only parts the handler reads. -/
structure LambdaEvent where
  rawPath : Option String
  path : Option String
  resource : Option String
  host : Option String
  deriving DecidableEq

/-- Path selection (`tile_server.py` lines 82-87): `rawPath`, else
`path`, else `event.get('resource', '')`. -/
def event_path (e : LambdaEvent) : String :=
  match e.rawPath with
  | some p => p
  | none =>
    match e.path with
    | some p => p
    | none => e.resource.getD ""

/-- `event.get('headers', {}).get('host', 'example.com')`. -/
def event_host (e : LambdaEvent) : String := e.host.getD "example.com"

/-- Python's substring test `sub in s`, for a nonempty `sub`. -/
def substr_mem (sub s : String) : Bool := containsSub sub.toList s.toList

/-- `path == 'metadata.json' or path == 'metadata'` (line 92). -/
def is_metadata (p : String) : Bool := p == "metadata.json" || p == "metadata"

/-- `'.pbf' in path or '.mvt' in path` (line 131). -/
def is_tilepath (p : String) : Bool := substr_mem ".pbf" p || substr_mem ".mvt" p

/-- `path.replace('.pbf', '').replace('.mvt', '').split('/')` (line 133). -/
def split_parts (p : String) : List String :=
  (splitOnSlash (replaceSub ".mvt" "" (replaceSub ".pbf" "" p)).toList).map String.mk

/-- `z = int(parts[-3]); x = int(parts[-2]); y = int(parts[-1])`
(lines 136-138), with Python's `ValueError` as `Except.error`; `z` is
converted first, so its failure message wins. -/
def parse_zxy (parts : List String) : Except String (Int × Int × Int) :=
  let r := parts.reverse
  match pyInt (r.getD 2 "") with
  | none => .error ("invalid literal for int() with base 10: " ++ r.getD 2 "")
  | some z =>
    match pyInt (r.getD 1 "") with
    | none => .error ("invalid literal for int() with base 10: " ++ r.getD 1 "")
    | some x =>
      match pyInt (r.getD 0 "") with
      | none => .error ("invalid literal for int() with base 10: " ++ r.getD 0 "")
      | some y => .ok (z, x, y)

/-- A response body: the transport-level serialization (`json.dumps`,
base64 framing) is kept symbolic, the content is kept exact. -/
inductive Body where
  | str : String → Body
  | jsonErr : String → Body
  | jsonDoc : TileJson → Body
  | b64 : List Nat → Body

/-- The structured response dict every branch of `lambda_handler`
returns. -/
structure Response where
  statusCode : Nat
  contentType : Option String
  contentEncoding : Option String
  cacheControl : Option String
  body : Body
  isBase64Encoded : Bool

/-- The 200 metadata response (lines 121-128). -/
def resp200_json (tj : TileJson) : Response :=
  { statusCode := 200, contentType := some "application/json",
    contentEncoding := none, cacheControl := some "public, max-age=86400",
    body := .jsonDoc tj, isBase64Encoded := false }

/-- The 200 tile response (lines 143-152). -/
def resp200_tile (data : List Nat) : Response :=
  { statusCode := 200, contentType := some "application/x-protobuf",
    contentEncoding := some "gzip", cacheControl := some "public, max-age=2592000",
    body := .b64 data, isBase64Encoded := true }

/-- The 204 no-tile response (lines 155-161). -/
def resp204 : Response :=
  { statusCode := 204, contentType := none, contentEncoding := none,
    cacheControl := some "public, max-age=86400", body := .str "",
    isBase64Encoded := false }

/-- The 404 response (lines 164-170). -/
def resp404 : Response :=
  { statusCode := 404, contentType := some "application/json",
    contentEncoding := none, cacheControl := none,
    body := .jsonErr "Not found", isBase64Encoded := false }

/-- The 500 response of the outer `except` (lines 177-183). -/
def err500 (msg : String) : Response :=
  { statusCode := 500, contentType := some "application/json",
    contentEncoding := none, cacheControl := none,
    body := .jsonErr msg, isBase64Encoded := false }

/-- `lambda_handler` (`tile_server.py` lines 69-183).  The outer
`try/except Exception` is woven in at the two places an exception can
arise, the `int()` conversions (`build_tilejson`, `parse_zxy`): their
`Except.error` becomes the 500 response.  `if tile_data:` tests Python
truthiness: both `None` and the empty bytestring take the 204 branch. -/
def lambda_handler (loads : String → Option JsonVal) (db : DbState)
    (event : LambdaEvent) : Response :=
  let path := norm_path (event_path event)
  if is_metadata path then
    match build_tilejson loads (get_metadata db) (event_host event) with
    | .ok tj => resp200_json tj
    | .error e => err500 e
  else if is_tilepath path then
    let parts := split_parts path
    if parts.length ≥ 3 then
      match parse_zxy parts with
      | .error e => err500 e
      | .ok (z, x, y) =>
        match get_tile db z x y with
        | some d => if d.isEmpty then resp204 else resp200_tile d
        | none => resp204
    else resp404
  else resp404

example : norm_path "/0/0/0.pbf" = "0/0/0.pbf" := by decide
example : norm_path "%6Detadata.json" = "metadata.json" := by decide
example : split_parts "0/0/0.pbf" = ["0", "0", "0"] := by decide
example : parse_zxy ["0", "0", "0"] = .ok (0, 0, 0) := by rfl
example : parse_zxy ["a", "b", "c"] =
    .error "invalid literal for int() with base 10: a" := by rfl
example : (lambda_handler (fun _ => none) none
    { rawPath := some "/0/0/0.pbf", path := none, resource := none,
      host := none }).statusCode = 204 := by rfl
example : (lambda_handler (fun _ => none) none
    { rawPath := some "/metadata.json", path := none, resource := none,
      host := none }).statusCode = 200 := by rfl
example : (lambda_handler (fun _ => none) none
    { rawPath := some "/a/b/c.pbf", path := none, resource := none,
      host := none }).statusCode = 500 := by rfl

/-! ## The bulk publishers -/

/-- The sink key `f"tiles/{z}/{x}/{xyz_y}.pbf"` with
`xyz_y = (2 ** z) - 1 - y`, built by `upload_tile` in
`extract_tiles_to_s3.py` (lines 26-30, `S3_PREFIX = "tiles/"`) and
`extract_to_s3_ecs.py` (lines 50-53, `TILES_PREFIX = 'tiles/'`). -/
def upload_tile_key (z x y : Int) : String :=
  "tiles/" ++ toString z ++ "/" ++ toString x ++ "/" ++ toString (flip_row z y) ++ ".pbf"

/-- A body written to the sink by `put_object`: a relocated tile payload
or the serialized TileJSON document. -/
inductive SinkBody where
  | tile : List Nat → SinkBody
  | meta : TileJson → SinkBody

/-- One `put_object` call: its key and body. -/
structure SinkObject where
  key : String
  body : SinkBody

/-- The `tilejson` dict of `extract_tiles_to_s3.py` (lines 81-93): the
same fields and defaults as the request handler's, with the CloudFront
URL template in `tiles`. -/
def ts_build_tilejson (loads : String → Option JsonVal)
    (md : List (String × String)) : Except String TileJson :=
  match intField md "minzoom" 0 with
  | .error e => .error e
  | .ok mz =>
    match intField md "maxzoom" 14 with
    | .error e => .error e
    | .ok Mz =>
      .ok {
        tilejson := "3.0.0"
        name := (mget md "name").getD "BLM PLSS CadNSDI"
        description := (mget md "description").getD "BLM National Public Land Survey System"
        version := (mget md "version").getD "1.0.0"
        format := (mget md "format").getD "pbf"
        minzoom := mz
        maxzoom := Mz
        bounds := parse_metadata_value loads (mget md "bounds")
          (.arr [.num (-180), .num (-850511/10000), .num 180, .num (850511/10000)])
        center := parse_metadata_value loads (mget md "center")
          (.arr [.num (-985795/10000), .num (398283/10000), .num 4])
        tiles := ["https://d38r6gz80i2tvd.cloudfront.net/tiles/{z}/{x}/{y}.pbf"]
        vector_layers := parse_metadata_value loads (mget md "json") (.arr []) }

/-- `extract_and_upload` of `extract_tiles_to_s3.py` (lines 47-135) as the
sequence of `put_object` calls it issues: `metadata.json` first (line 95),
then one tile object per record of the `tiles` relation, keyed through the
scheme conversion (`upload_tile`, lines 22-44), body the payload bytes
unchanged.  An `int()` failure while building the TileJSON aborts the run
before any tile is written (`Except.error`). -/
def ts_extract_and_upload (loads : String → Option JsonVal)
    (m : MBTiles) : Except String (List SinkObject) :=
  match ts_build_tilejson loads m.metadata with
  | .error e => .error e
  | .ok tj =>
    .ok (⟨"metadata.json", .meta tj⟩ ::
      m.tiles.map fun r =>
        ⟨upload_tile_key r.zoom_level r.tile_column r.tile_row, .tile r.tile_data⟩)

/-- The TileJSON document of `extract_to_s3_ecs.py` (lines 101-112): no
`version` key, `format` hardcoded to `"pbf"`, and coarser defaults for
`name`, `description`, `bounds` and `center` than the other two variants. -/
structure EcsTileJson where
  tilejson : String
  name : String
  description : String
  format : String
  minzoom : Int
  maxzoom : Int
  bounds : JsonVal
  center : JsonVal
  tiles : List String
  vector_layers : JsonVal

/-- The `tilejson` dict construction of `extract_to_s3_ecs.py`
(lines 101-112). -/
def ecs_build_tilejson (loads : String → Option JsonVal)
    (md : List (String × String)) : Except String EcsTileJson :=
  match intField md "minzoom" 0 with
  | .error e => .error e
  | .ok mz =>
    match intField md "maxzoom" 14 with
    | .error e => .error e
    | .ok Mz =>
      .ok {
        tilejson := "3.0.0"
        name := (mget md "name").getD "BLM PLSS"
        description := (mget md "description").getD "BLM PLSS Cadastral Data"
        format := "pbf"
        minzoom := mz
        maxzoom := Mz
        bounds := ecs_parse_value loads (mget md "bounds")
          (.arr [.num (-180), .num (-85), .num 180, .num 85])
        center := ecs_parse_value loads (mget md "center")
          (.arr [.num (-98), .num 39, .num 4])
        tiles := ["https://d38r6gz80i2tvd.cloudfront.net/tiles/{z}/{x}/{y}.pbf"]
        vector_layers := ecs_parse_value loads (mget md "json") (.arr []) }

/-- A `put_object` call issued by the ECS publisher. -/
inductive EcsSinkBody where
  | tile : List Nat → EcsSinkBody
  | meta : EcsTileJson → EcsSinkBody

/-- One sink write of the ECS publisher. -/
structure EcsSinkObject where
  key : String
  body : EcsSinkBody

/-- `extract_and_upload` of `extract_to_s3_ecs.py` (lines 70-150) as its
sequence of `put_object` calls: `metadata.json` (line 114), then one
object per tile record through `upload_tile` (lines 46-67). -/
def ecs_extract_and_upload (loads : String → Option JsonVal)
    (m : MBTiles) : Except String (List EcsSinkObject) :=
  match ecs_build_tilejson loads m.metadata with
  | .error e => .error e
  | .ok tj =>
    .ok (⟨"metadata.json", .meta tj⟩ ::
      m.tiles.map fun r =>
        ⟨upload_tile_key r.zoom_level r.tile_column r.tile_row, .tile r.tile_data⟩)

/-- The completion-tracking loop of both publishers
(`extract_tiles_to_s3.py` lines 120-127, `extract_to_s3_ecs.py` lines
136-143): the main thread consumes `as_completed(futures)` and
increments `uploaded` on a `True` result, `failed` on a `False` result —
a single-writer aggregation over the completion order. -/
def tally_uploads (results : List Bool) : Nat × Nat :=
  results.foldl
    (fun acc b => if b then (acc.1 + 1, acc.2) else (acc.1, acc.2 + 1)) (0, 0)

example : upload_tile_key 1 0 0 = "tiles/1/0/1.pbf" := by decide
example : upload_tile_key 1 0 1 = "tiles/1/0/0.pbf" := by decide
example : tally_uploads [true, false, true] = (2, 1) := by decide

/-! ## Shared helper lemmas -/

/-- A decode function modelling `json.loads` that fails on every input;
used to instantiate witnesses and counterexamples (the inputs involved
never decode successfully, or never reach `json.loads` at all). -/
def loadsNone : String → Option JsonVal := fun _ => none

/-- On a path that routes to the tile branch and parses, the handler's
answer is decided by `get_tile` and the Python truthiness of its result. -/
theorem handler_tile_branch (loads : String → Option JsonVal) (db : DbState)
    (event : LambdaEvent) (z x y : Int)
    (hm : is_metadata (norm_path (event_path event)) = false)
    (ht : is_tilepath (norm_path (event_path event)) = true)
    (hlen : (split_parts (norm_path (event_path event))).length ≥ 3)
    (hp : parse_zxy (split_parts (norm_path (event_path event))) = .ok (z, x, y)) :
    lambda_handler loads db event =
      match get_tile db z x y with
      | some d => if d.isEmpty then resp204 else resp200_tile d
      | none => resp204 := by
  unfold lambda_handler
  simp only [hm, ht, hlen, hp, Bool.false_eq_true, if_false, if_true, ge_iff_le, ite_true]

/-- The accumulator-generalized form of the completion-tally loop. -/
theorem tally_uploads_go (l : List Bool) (a b : Nat) :
    l.foldl (fun acc c => if c then (acc.1 + 1, acc.2) else (acc.1, acc.2 + 1)) (a, b)
      = (a + l.count true, b + l.count false) := by
  induction l generalizing a b with
  | nil => simp
  | cons x xs ih =>
    cases x <;> simp [List.count_cons, ih] <;> omega

/-- The tally is the pair of result counts. -/
theorem tally_uploads_eq (l : List Bool) :
    tally_uploads l = (l.count true, l.count false) := by
  simpa using tally_uploads_go l 0 0

/-- Counting `true`s and `false`s exhausts a boolean list. -/
theorem count_true_add_count_false (l : List Bool) :
    l.count true + l.count false = l.length := by
  induction l with
  | nil => simp
  | cons x xs ih => cases x <;> simp [List.count_cons] <;> omega

/-! ## Claims -/

/-- C1: for every zoom `z ≥ 0` and row `0 ≤ r ≤ 2^z - 1`, the
archive/public row conversion applied twice returns the original
coordinate — `toArchive (toPublic ⟨z, c, r⟩) = ⟨z, c, r⟩` — the flip
`row' = (2^z - 1) - row` is its own inverse and leaves zoom and column
unchanged (at zoom 0 it maps row 0 to row 0). -/
theorem c1_row_conversion_involutive (z c r : Int) (_hz : 0 ≤ z) (_hr0 : 0 ≤ r)
    (_hr : r ≤ 2 ^ z.toNat - 1) :
    toArchive (toPublic ⟨z, c, r⟩) = ⟨z, c, r⟩ := by
  simp only [toPublic, toArchive, flip_row]
  congr 1
  omega

/-- C1 witness: the round trip at the concrete coordinate
`(zoom 3, column 5, row 2)`. -/
theorem c1_row_conversion_involutive_witness :
    (0 : Int) ≤ 3 ∧ (0 : Int) ≤ 2 ∧ (2 : Int) ≤ 2 ^ (3 : Int).toNat - 1 ∧
      toArchive (toPublic ⟨3, 5, 2⟩) = ⟨3, 5, 2⟩ :=
  ⟨by decide, by decide, by decide,
    c1_row_conversion_involutive 3 5 2 (by decide) (by decide) (by decide)⟩

/-- C9: for every run over `N` submitted write tasks of which `K` fail,
the completion-order tally yields `uploaded = N - K` and `failed = K`
with `N` tasks attempted, for every order in which the tasks complete
(every permutation of the submitted results). -/
theorem c9_counters_exact (results completed : List Bool)
    (hperm : completed.Perm results) :
    tally_uploads completed =
      (results.length - results.count false, results.count false) ∧
    completed.length = results.length := by
  have hc := tally_uploads_eq completed
  have ht := hperm.count_eq true
  have hf := hperm.count_eq false
  have hlen := count_true_add_count_false results
  refine ⟨?_, hperm.length_eq⟩
  rw [hc, ht, hf]
  have : results.count true = results.length - results.count false := by omega
  rw [this]

/-- C9 witness: three tasks completing in an order different from
submission, one failure: `uploaded = 2`, `failed = 1`. -/
theorem c9_counters_exact_witness :
    ([false, true, true] : List Bool).Perm [true, false, true] ∧
      (tally_uploads [false, true, true] =
        (([true, false, true] : List Bool).length -
          ([true, false, true] : List Bool).count false,
         ([true, false, true] : List Bool).count false) ∧
       ([false, true, true] : List Bool).length =
         ([true, false, true] : List Bool).length) :=
  ⟨by decide, c9_counters_exact [true, false, true] [false, true, true] (by decide)⟩

/-- C4: a tile request whose path parses to a coordinate for which the
open archive holds no record at the converted archive coordinate is
answered with status 204, an empty body and a one-day cache directive
(`max-age=86400`), not with an error status. -/
theorem c4_absent_tile_204 (loads : String → Option JsonVal)
    (event : LambdaEvent) (m : MBTiles) (z x y : Int)
    (hm : is_metadata (norm_path (event_path event)) = false)
    (ht : is_tilepath (norm_path (event_path event)) = true)
    (hlen : (split_parts (norm_path (event_path event))).length ≥ 3)
    (hp : parse_zxy (split_parts (norm_path (event_path event))) = .ok (z, x, y))
    (hz : 0 ≤ z)
    (hnone : m.tiles.find? (fun r =>
      r.zoom_level == z && r.tile_column == x && r.tile_row == flip_row z y) = none) :
    lambda_handler loads (some m) event = resp204 ∧
    resp204.statusCode = 204 ∧ resp204.body = Body.str "" ∧
    resp204.cacheControl = some "public, max-age=86400" := by
  have hb := handler_tile_branch loads (some m) event z x y hm ht hlen hp
  have hget : get_tile (some m) z x y = none := by
    simp [get_tile, show ¬ z < 0 from not_lt.mpr hz, hnone]
  rw [hb, hget]
  exact ⟨rfl, rfl, rfl, rfl⟩

/-- C4 witness: requesting `0/0/0.pbf` against an open archive with no
records yields the 204 response. -/
theorem c4_absent_tile_204_witness :
    lambda_handler loadsNone (some ⟨[], []⟩)
      { rawPath := some "/0/0/0.pbf", path := none, resource := none,
        host := none } = resp204 :=
  (c4_absent_tile_204 loadsNone _ ⟨[], []⟩ 0 0 0 (by decide) (by decide)
    (by decide) (by rfl) (by decide) (by rfl)).1

/-- C10: a tile request whose coordinate resolves to an archive record
holding an empty payload is answered 204 — the record is treated as
absent, because `if tile_data:` tests the Python truthiness of the
payload (empty bytes are falsy), not the record's existence. -/
theorem c10_empty_payload_204 (loads : String → Option JsonVal)
    (db : DbState) (event : LambdaEvent) (z x y : Int)
    (hm : is_metadata (norm_path (event_path event)) = false)
    (ht : is_tilepath (norm_path (event_path event)) = true)
    (hlen : (split_parts (norm_path (event_path event))).length ≥ 3)
    (hp : parse_zxy (split_parts (norm_path (event_path event))) = .ok (z, x, y))
    (hfound : get_tile db z x y = some []) :
    lambda_handler loads db event = resp204 ∧ resp204.statusCode = 204 := by
  have hb := handler_tile_branch loads db event z x y hm ht hlen hp
  rw [hb, hfound]
  exact ⟨rfl, rfl⟩

/-- C10 witness: an archive whose record at `(0, 0, 0)` carries empty
payload bytes answers the request for `0/0/0.pbf` with 204. -/
theorem c10_empty_payload_204_witness :
    get_tile (some ⟨[⟨0, 0, 0, []⟩], []⟩) 0 0 0 = some [] ∧
      lambda_handler loadsNone (some ⟨[⟨0, 0, 0, []⟩], []⟩)
        { rawPath := some "/0/0/0.pbf", path := none, resource := none,
          host := none } = resp204 :=
  ⟨by rfl,
   (c10_empty_payload_204 loadsNone (some ⟨[⟨0, 0, 0, []⟩], []⟩) _ 0 0 0
     (by decide) (by decide) (by decide) (by rfl) (by rfl)).1⟩

/-- C3: for every request event the handler returns a structured response
(one of the status codes 200, 204, 404, 500) and never lets a fault
escape; in particular a `.pbf`/`.mvt` path whose coordinate segments do
not parse as integers is answered with the structured 500 error response
rather than crashing. -/
theorem c3_handler_total (loads : String → Option JsonVal) (db : DbState)
    (event : LambdaEvent) :
    ((lambda_handler loads db event).statusCode = 200 ∨
     (lambda_handler loads db event).statusCode = 204 ∨
     (lambda_handler loads db event).statusCode = 404 ∨
     (lambda_handler loads db event).statusCode = 500) ∧
    (∀ msg, is_metadata (norm_path (event_path event)) = false →
      is_tilepath (norm_path (event_path event)) = true →
      (split_parts (norm_path (event_path event))).length ≥ 3 →
      parse_zxy (split_parts (norm_path (event_path event))) = .error msg →
      lambda_handler loads db event = err500 msg ∧
        (err500 msg).statusCode = 500 ∧ (err500 msg).body = Body.jsonErr msg) := by
  constructor
  · by_cases h1 : is_metadata (norm_path (event_path event)) = true
    · unfold lambda_handler
      simp only [h1, if_true]
      cases hbt : build_tilejson loads (get_metadata db) (event_host event) with
      | error e => simp [err500]
      | ok tj => simp [resp200_json]
    · simp only [Bool.not_eq_true] at h1
      by_cases h2 : is_tilepath (norm_path (event_path event)) = true
      · unfold lambda_handler
        simp only [h1, h2, Bool.false_eq_true, if_false, if_true]
        by_cases h3 : (split_parts (norm_path (event_path event))).length ≥ 3
        · simp only [h3, if_true]
          cases hpz : parse_zxy (split_parts (norm_path (event_path event))) with
          | error e => simp [err500]
          | ok t =>
            obtain ⟨z, x, y⟩ := t
            cases hgt : get_tile db z x y with
            | none => simp [hgt, resp204]
            | some d =>
              by_cases hd : d = [] <;> simp [hgt, hd, resp204, resp200_tile]
        · simp only [h3, if_false]
          simp [resp404]
      · simp only [Bool.not_eq_true] at h2
        unfold lambda_handler
        simp only [h1, h2, Bool.false_eq_true, if_false]
        simp [resp404]
  · intro msg hm ht hlen hp
    refine ⟨?_, rfl, rfl⟩
    unfold lambda_handler
    simp only [hm, ht, hlen, hp, Bool.false_eq_true, if_false, if_true, ge_iff_le,
      ite_true]

/-- C3 witness: the path `a/b/c.pbf` with non-numeric segments is
answered with the structured 500 error response. -/
theorem c3_handler_total_witness :
    lambda_handler loadsNone none
      { rawPath := some "/a/b/c.pbf", path := none, resource := none,
        host := none } = err500 "invalid literal for int() with base 10: a" :=
  ((c3_handler_total loadsNone none
    { rawPath := some "/a/b/c.pbf", path := none, resource := none,
      host := none }).2 "invalid literal for int() with base 10: a"
    (by decide) (by decide) (by decide) (by rfl)).1

/-- C5 counterexample: coordinates with out-of-range row (`1/0/5.pbf`,
row 5 at zoom 1) or negative zoom (`-1/0/0.pbf`) are not rejected with an
`InvalidCoordinate` 4xx-equivalent: the handler parses them, proceeds to
the lookup (which matches no record) and answers 204, a success-class
response. -/
theorem c5_no_validation_cex :
    lambda_handler loadsNone (some ⟨[⟨1, 0, 1, [7]⟩], []⟩)
      { rawPath := some "/1/0/5.pbf", path := none, resource := none,
        host := none } = resp204 ∧
    lambda_handler loadsNone (some ⟨[⟨1, 0, 1, [7]⟩], []⟩)
      { rawPath := some "/-1/0/0.pbf", path := none, resource := none,
        host := none } = resp204 ∧
    resp204.statusCode = 204 :=
  ⟨rfl, rfl, rfl⟩

/-- C5 amended: the conversion on the lookup path performs no range
validation; for a negative zoom or a row outside `[0, 2^zoom - 1]` the
flipped row falls outside every well-formed archive's row range, so the
lookup finds nothing and the handler answers 204 — the request proceeds
to a lookup instead of failing with `InvalidCoordinate`. -/
theorem c5_out_of_range_204 (loads : String → Option JsonVal)
    (event : LambdaEvent) (m : MBTiles) (z x y : Int)
    (hwf : ∀ r ∈ m.tiles, 0 ≤ r.zoom_level ∧ 0 ≤ r.tile_row ∧
      r.tile_row ≤ 2 ^ r.zoom_level.toNat - 1)
    (hbad : z < 0 ∨ y < 0 ∨ 2 ^ z.toNat - 1 < y)
    (hm : is_metadata (norm_path (event_path event)) = false)
    (ht : is_tilepath (norm_path (event_path event)) = true)
    (hlen : (split_parts (norm_path (event_path event))).length ≥ 3)
    (hp : parse_zxy (split_parts (norm_path (event_path event))) = .ok (z, x, y)) :
    get_tile (some m) z x y = none ∧
      lambda_handler loads (some m) event = resp204 := by
  have hget : get_tile (some m) z x y = none := by
    unfold get_tile
    by_cases hz : z < 0
    · simp [hz]
    · simp only [hz, if_false, Option.map_eq_none', List.find?_eq_none]
      intro r hr hmatch
      simp only [Bool.and_eq_true, beq_iff_eq] at hmatch
      obtain ⟨⟨hz', _⟩, hy'⟩ := hmatch
      have hw := hwf r hr
      rw [hz'] at hw
      unfold flip_row at hy'
      omega
  have hb := handler_tile_branch loads (some m) event z x y hm ht hlen hp
  rw [hb, hget]
  exact ⟨rfl, rfl⟩

/-- C5 amended witness: row 5 at zoom 1 against a well-formed one-record
archive goes to the lookup and yields 204. -/
theorem c5_out_of_range_204_witness :
    get_tile (some ⟨[⟨1, 0, 1, [7]⟩], []⟩) 1 0 5 = none ∧
      lambda_handler loadsNone (some ⟨[⟨1, 0, 1, [7]⟩], []⟩)
        { rawPath := some "/1/0/5.pbf", path := none, resource := none,
          host := none } = resp204 :=
  c5_out_of_range_204 loadsNone _ ⟨[⟨1, 0, 1, [7]⟩], []⟩ 1 0 5
    (by decide) (by decide) (by decide) (by decide) (by decide) (by rfl)

/-- C6 counterexample: with the archive missing (`get_db_connection`
returns `None`), a metadata request is answered 200 with a descriptor
built from the hardcoded fallback dict and a tile request is answered
204 — success responses, not the claimed 500-class fatal outcome. -/
theorem c6_missing_archive_cex :
    (lambda_handler loadsNone none
      { rawPath := some "/metadata.json", path := none, resource := none,
        host := none }).statusCode = 200 ∧
    (lambda_handler loadsNone none
      { rawPath := some "/0/0/0.pbf", path := none, resource := none,
        host := none }).statusCode = 204 :=
  ⟨rfl, rfl⟩

/-- C6 amended: when the archive cannot be opened the request does not
fail: a metadata request is answered 200 with the TileJSON built entirely
from the hardcoded fallback metadata, and a well-formed tile request is
answered 204 (the lookup path treats the absent connection as an absent
tile). -/
theorem c6_missing_archive_defaults (loads : String → Option JsonVal)
    (event : LambdaEvent) :
    (is_metadata (norm_path (event_path event)) = true →
      lambda_handler loads none event = resp200_json
        { tilejson := "3.0.0", name := "BLM PLSS CadNSDI",
          description := "BLM National Public Land Survey System",
          version := "1.0.0", format := "pbf", minzoom := 0, maxzoom := 14,
          bounds := .arr [.num (-180), .num (-850511/10000), .num 180,
            .num (850511/10000)],
          center := .arr [.num (-985795/10000), .num (398283/10000), .num 4],
          tiles := ["https://" ++ event_host event ++ "/{z}/{x}/{y}.pbf"],
          vector_layers := .arr [] }) ∧
    (∀ z x y, is_metadata (norm_path (event_path event)) = false →
      is_tilepath (norm_path (event_path event)) = true →
      (split_parts (norm_path (event_path event))).length ≥ 3 →
      parse_zxy (split_parts (norm_path (event_path event))) = .ok (z, x, y) →
      lambda_handler loads none event = resp204) := by
  constructor
  · intro hm
    unfold lambda_handler
    simp only [hm, if_true]
    rfl
  · intro z x y hm ht hlen hp
    have hb := handler_tile_branch loads none event z x y hm ht hlen hp
    rw [hb]
    rfl

/-- C6 amended witness: the concrete `metadata.json` request against the
missing archive, answered with the fallback-built 200 document. -/
theorem c6_missing_archive_defaults_witness :
    lambda_handler loadsNone none
      { rawPath := some "/metadata.json", path := none, resource := none,
        host := none } = resp200_json
      { tilejson := "3.0.0", name := "BLM PLSS CadNSDI",
        description := "BLM National Public Land Survey System",
        version := "1.0.0", format := "pbf", minzoom := 0, maxzoom := 14,
        bounds := .arr [.num (-180), .num (-850511/10000), .num 180,
          .num (850511/10000)],
        center := .arr [.num (-985795/10000), .num (398283/10000), .num 4],
        tiles := ["https://example.com/{z}/{x}/{y}.pbf"],
        vector_layers := .arr [] } :=
  (c6_missing_archive_defaults loadsNone
    { rawPath := some "/metadata.json", path := none, resource := none,
      host := none }).1 (by decide)

/-- C7 counterexample: a metadata mapping with a non-numeric `minzoom`
string makes the translation raise — `int("abc")` is a `ValueError`, not
routed through `parse_metadata_value` — so `build_tilejson` errors and
the handler surfaces it as the 500 response: decoding failure does
surface as an error, refuting the never-raises claim. -/
theorem c7_translation_raises_cex :
    build_tilejson loadsNone [("minzoom", "abc")] "example.com" =
      .error "invalid literal for int() with base 10: abc" ∧
    lambda_handler loadsNone (some ⟨[], [("minzoom", "abc")]⟩)
      { rawPath := some "/metadata.json", path := none, resource := none,
        host := none } =
      err500 "invalid literal for int() with base 10: abc" :=
  ⟨rfl, rfl⟩

/-- C7 amended: the JSON-decoding helper `parse_metadata_value` itself
never raises — a missing value yields the default, a decoded value is
passed on, a failed decode degrades to the raw string (or the default
when the string is empty) — but the full metadata-to-descriptor
translation is not total: `minzoom`/`maxzoom` are converted with a
strict `int()`, which raises on a non-numeric string. -/
theorem c7_decode_passthrough (loads : String → Option JsonVal) (d : JsonVal) :
    (parse_metadata_value loads none d = d) ∧
    (∀ s j, loads s = some j → parse_metadata_value loads (some s) d = j) ∧
    (∀ s, loads s = none → s ≠ "" →
      parse_metadata_value loads (some s) d = .str s) ∧
    (loads "" = none → parse_metadata_value loads (some "") d = d) ∧
    (∀ md host s, mget md "minzoom" = some s → pyInt s = none →
      build_tilejson loads md host =
        .error ("invalid literal for int() with base 10: " ++ s)) := by
  refine ⟨rfl, ?_, ?_, ?_, ?_⟩
  · intro s j h
    simp [parse_metadata_value, h]
  · intro s h hne
    simp [parse_metadata_value, h, hne]
  · intro h
    simp [parse_metadata_value, h]
  · intro md host s hmz hp
    simp only [build_tilejson, intField, hmz, hp]

/-- C7 amended witness: passthrough of an undecodable string and the
`int()` failure on `minzoom = "7.5"`. -/
theorem c7_decode_passthrough_witness :
    parse_metadata_value loadsNone (some "not json") JsonVal.null =
      .str "not json" ∧
    build_tilejson loadsNone [("minzoom", "7.5")] "example.com" =
      .error "invalid literal for int() with base 10: 7.5" :=
  ⟨(c7_decode_passthrough loadsNone .null).2.2.1 "not json" rfl (by decide),
   (c7_decode_passthrough loadsNone .null).2.2.2.2 [("minzoom", "7.5")]
     "example.com" "7.5" (by rfl) (by rfl)⟩

/-- C8 counterexample: the ECS bulk publisher (`extract_to_s3_ecs.py`)
defaults a missing `bounds` key to `[-180, -85, 180, 85]`, which differs
from the documented default `[-180, -85.0511, 180, 85.0511]` applied by
the request handler and the local publisher. -/
theorem c8_ecs_default_differs_cex :
    ecs_build_tilejson loadsNone [] = .ok
      { tilejson := "3.0.0", name := "BLM PLSS",
        description := "BLM PLSS Cadastral Data", format := "pbf",
        minzoom := 0, maxzoom := 14,
        bounds := .arr [.num (-180), .num (-85), .num 180, .num 85],
        center := .arr [.num (-98), .num 39, .num 4],
        tiles := ["https://d38r6gz80i2tvd.cloudfront.net/tiles/{z}/{x}/{y}.pbf"],
        vector_layers := .arr [] } ∧
    (JsonVal.arr [.num (-180), .num (-85), .num 180, .num 85] ≠
      .arr [.num (-180), .num (-850511/10000), .num 180,
        .num (850511/10000)]) := by
  refine ⟨rfl, ?_⟩
  intro h
  simp only [JsonVal.arr.injEq, List.cons.injEq, JsonVal.num.injEq,
    and_true, true_and] at h
  norm_num at h

/-- C8 amended: with the `bounds` key absent (or empty and undecodable),
the request handler and the local publisher default it to
`[-180, -85.0511, 180, 85.0511]`, while the ECS publisher variant
defaults it to `[-180, -85, 180, 85]`. -/
theorem c8_bounds_defaults (loads : String → Option JsonVal)
    (md : List (String × String)) (host : String)
    (hb : mget md "bounds" = none ∨
      (mget md "bounds" = some "" ∧ loads "" = none)) :
    (∀ tj, build_tilejson loads md host = .ok tj →
      tj.bounds = .arr [.num (-180), .num (-850511/10000), .num 180,
        .num (850511/10000)]) ∧
    (∀ tj, ts_build_tilejson loads md = .ok tj →
      tj.bounds = .arr [.num (-180), .num (-850511/10000), .num 180,
        .num (850511/10000)]) ∧
    (∀ tj, ecs_build_tilejson loads md = .ok tj →
      tj.bounds = .arr [.num (-180), .num (-85), .num 180, .num 85]) := by
  have hpv : ∀ d, parse_metadata_value loads (mget md "bounds") d = d := by
    rcases hb with h | ⟨h, hl⟩ <;> intro d
    · simp [parse_metadata_value, h]
    · simp [parse_metadata_value, h, hl]
  have hpv2 : ∀ d, ecs_parse_value loads (mget md "bounds") d = d := by
    rcases hb with h | ⟨h, hl⟩ <;> intro d
    · simp [ecs_parse_value, h]
    · simp [ecs_parse_value, h, hl]
  refine ⟨?_, ?_, ?_⟩ <;> intro tj htj
  · unfold build_tilejson at htj
    cases h1 : intField md "minzoom" 0 with
    | error e => rw [h1] at htj; simp at htj
    | ok mz =>
      rw [h1] at htj
      cases h2 : intField md "maxzoom" 14 with
      | error e => rw [h2] at htj; simp at htj
      | ok Mz =>
        rw [h2] at htj
        simp only [Except.ok.injEq] at htj
        rw [← htj]
        exact hpv _
  · unfold ts_build_tilejson at htj
    cases h1 : intField md "minzoom" 0 with
    | error e => rw [h1] at htj; simp at htj
    | ok mz =>
      rw [h1] at htj
      cases h2 : intField md "maxzoom" 14 with
      | error e => rw [h2] at htj; simp at htj
      | ok Mz =>
        rw [h2] at htj
        simp only [Except.ok.injEq] at htj
        rw [← htj]
        exact hpv _
  · unfold ecs_build_tilejson at htj
    cases h1 : intField md "minzoom" 0 with
    | error e => rw [h1] at htj; simp at htj
    | ok mz =>
      rw [h1] at htj
      cases h2 : intField md "maxzoom" 14 with
      | error e => rw [h2] at htj; simp at htj
      | ok Mz =>
        rw [h2] at htj
        simp only [Except.ok.injEq] at htj
        rw [← htj]
        exact hpv2 _

/-- C8 amended witness: the handler's builder over empty metadata
produces the documented bounds default. -/
theorem c8_bounds_defaults_witness :
    build_tilejson loadsNone [] "example.com" = .ok
      { tilejson := "3.0.0", name := "BLM PLSS CadNSDI",
        description := "BLM National Public Land Survey System",
        version := "1.0.0", format := "pbf", minzoom := 0, maxzoom := 14,
        bounds := .arr [.num (-180), .num (-850511/10000), .num 180,
          .num (850511/10000)],
        center := .arr [.num (-985795/10000), .num (398283/10000), .num 4],
        tiles := ["https://example.com/{z}/{x}/{y}.pbf"],
        vector_layers := .arr [] } ∧
    ({ tilejson := "3.0.0", name := "BLM PLSS CadNSDI",
        description := "BLM National Public Land Survey System",
        version := "1.0.0", format := "pbf", minzoom := 0, maxzoom := 14,
        bounds := .arr [.num (-180), .num (-850511/10000), .num 180,
          .num (850511/10000)],
        center := .arr [.num (-985795/10000), .num (398283/10000), .num 4],
        tiles := ["https://example.com/{z}/{x}/{y}.pbf"],
        vector_layers := .arr [] } : TileJson).bounds =
      .arr [.num (-180), .num (-850511/10000), .num 180,
        .num (850511/10000)] :=
  ⟨rfl, (c8_bounds_defaults loadsNone [] "example.com" (Or.inl rfl)).1 _ rfl⟩

/-- C2: publishing an archive whose tile records are exactly the
archive-scheme coordinates `(0,0,0)`, `(1,0,0)`, `(1,0,1)` (in any scan
order, with any payloads) writes exactly three tile objects at the
public-scheme keys `tiles/0/0/0.pbf`, `tiles/1/0/1.pbf` and
`tiles/1/0/0.pbf`, each body the record's payload bytes unchanged, plus
exactly one `metadata.json` object — in both publisher variants. -/
theorem c2_publish_three_tiles (loads : String → Option JsonVal)
    (l : List TileRecord) (d1 d2 d3 : List Nat)
    (hl : l.Perm [⟨0, 0, 0, d1⟩, ⟨1, 0, 0, d2⟩, ⟨1, 0, 1, d3⟩]) :
    (∃ tj tiles, ts_extract_and_upload loads ⟨l, []⟩ =
        .ok (⟨"metadata.json", .meta tj⟩ :: tiles) ∧
      tiles.Perm [⟨"tiles/0/0/0.pbf", .tile d1⟩, ⟨"tiles/1/0/1.pbf", .tile d2⟩,
        ⟨"tiles/1/0/0.pbf", .tile d3⟩]) ∧
    (∃ tj tiles, ecs_extract_and_upload loads ⟨l, []⟩ =
        .ok (⟨"metadata.json", EcsSinkBody.meta tj⟩ :: tiles) ∧
      tiles.Perm [⟨"tiles/0/0/0.pbf", EcsSinkBody.tile d1⟩,
        ⟨"tiles/1/0/1.pbf", EcsSinkBody.tile d2⟩,
        ⟨"tiles/1/0/0.pbf", EcsSinkBody.tile d3⟩]) := by
  constructor
  · refine ⟨_, _, rfl, ?_⟩
    have h2 := hl.map (fun r =>
      (⟨upload_tile_key r.zoom_level r.tile_column r.tile_row,
        SinkBody.tile r.tile_data⟩ : SinkObject))
    exact h2
  · refine ⟨_, _, rfl, ?_⟩
    have h2 := hl.map (fun r =>
      (⟨upload_tile_key r.zoom_level r.tile_column r.tile_row,
        EcsSinkBody.tile r.tile_data⟩ : EcsSinkObject))
    exact h2

/-- C2 witness: the three-record archive in a scan order different from
the enumeration order. -/
theorem c2_publish_three_tiles_witness :
    (∃ tj tiles, ts_extract_and_upload loadsNone
        ⟨[⟨1, 0, 1, [3]⟩, ⟨0, 0, 0, [1]⟩, ⟨1, 0, 0, [2]⟩], []⟩ =
        .ok (⟨"metadata.json", .meta tj⟩ :: tiles) ∧
      tiles.Perm [⟨"tiles/0/0/0.pbf", .tile [1]⟩, ⟨"tiles/1/0/1.pbf", .tile [2]⟩,
        ⟨"tiles/1/0/0.pbf", .tile [3]⟩]) ∧
    (∃ tj tiles, ecs_extract_and_upload loadsNone
        ⟨[⟨1, 0, 1, [3]⟩, ⟨0, 0, 0, [1]⟩, ⟨1, 0, 0, [2]⟩], []⟩ =
        .ok (⟨"metadata.json", EcsSinkBody.meta tj⟩ :: tiles) ∧
      tiles.Perm [⟨"tiles/0/0/0.pbf", EcsSinkBody.tile [1]⟩,
        ⟨"tiles/1/0/1.pbf", EcsSinkBody.tile [2]⟩,
        ⟨"tiles/1/0/0.pbf", EcsSinkBody.tile [3]⟩]) :=
  c2_publish_three_tiles loadsNone
    [⟨1, 0, 1, [3]⟩, ⟨0, 0, 0, [1]⟩, ⟨1, 0, 0, [2]⟩] [1] [2] [3] (by decide)
